import Mathlib

/-!
Shallow embedding of the signal-derivation core of `metal_etf_trading.py`:
the ratio calculators (`calculate_gold_silver_ratio`,
`calculate_copper_gold_ratio`), the per-instrument momentum classifier and
the macro-environment aggregator (both bodies of `generate_trading_signals`),
and the composite signal combinator (score averaging in `main`).

Prices, percentage changes and ratio values are modelled as rationals.
Presentation-only fields of the Python signal dictionaries (the emoji
`signal` label and the f-string formatted `description`/`action` texts) are
omitted from the records, except where a claim depends on them: the macro
record keeps its `description` (the join of the fired factor strings, or the
fixed "정상 범위" string), with the numeric suffix of each factor string —
pure float formatting — abstracted away by `MacroFactor.render`.
-/

/-- A ratio signal record as built by `calculate_gold_silver_ratio` /
`calculate_copper_gold_ratio` (lines 181-267): the computed `ratio`, the
`level` string and the integer `score`. -/
structure RatioSignal where
  ratio : ℚ
  level : String
  score : ℤ
deriving DecidableEq, Repr

/-- `calculate_gold_silver_ratio` (lines 181-232): guard on zero silver
price, then a 5-way first-match classification of `gold_price / silver_price`. -/
def calculate_gold_silver_ratio (gold_price silver_price : ℚ) : Option RatioSignal :=
  if silver_price = 0 then none
  else
    let ratio := gold_price / silver_price
    if ratio > 90 then some ⟨ratio, "strong_buy_silver", 5⟩
    else if ratio > 82 then some ⟨ratio, "buy_silver", 4⟩
    else if ratio < 60 then some ⟨ratio, "strong_buy_gold", 5⟩
    else if ratio < 68 then some ⟨ratio, "buy_gold", 4⟩
    else some ⟨ratio, "neutral", 3⟩

/-- `calculate_copper_gold_ratio` (lines 234-267): guard on zero gold price,
then a 3-way classification of `(copper_price / gold_price) * 1000`. -/
def calculate_copper_gold_ratio (copper_price gold_price : ℚ) : Option RatioSignal :=
  if gold_price = 0 then none
  else
    let ratio := copper_price / gold_price * 1000
    if ratio > 1.5 then some ⟨ratio, "risk_on", 4⟩
    else if ratio < 0.8 then some ⟨ratio, "risk_off", 2⟩
    else some ⟨ratio, "balanced", 3⟩

/-- Month-ago reference close (line 299): `hist['Close'].iloc[-20]` when the
series has at least 20 observations, else `hist['Close'].iloc[0]`.
`closes` is the Close column, oldest first. -/
def month_ago_price (closes : List ℚ) : ℚ :=
  if closes.length ≥ 20 then closes.getD (closes.length - 20) 0 else closes.headD 0

/-- Quarter-ago reference close (line 302): `iloc[-60]` when the series has
at least 60 observations, else `iloc[0]`. -/
def quarter_ago_price (closes : List ℚ) : ℚ :=
  if closes.length ≥ 60 then closes.getD (closes.length - 60) 0 else closes.headD 0

/-- Start-of-window ("YTD") reference close (line 305): `iloc[0]`. -/
def ytd_price (closes : List ℚ) : ℚ :=
  closes.headD 0

/-- Percentage change `(cur - past) / past * 100` as written at lines 296,
300, 303, 306; meaningful only for `past ≠ 0` (see `generate_momentum_signal`). -/
def pct_change (cur past : ℚ) : ℚ :=
  (cur - past) / past * 100

/-- A per-instrument momentum signal record (lines 334-341): the `level`
string, the integer `score`, the day change (`day_change` key) and the
month/quarter/YTD changes that the description embeds. -/
structure MomentumSignal where
  level : String
  score : ℤ
  day_change : ℚ
  month_change : ℚ
  quarter_change : ℚ
  ytd_change : ℚ
deriving DecidableEq, Repr

/-- The momentum tally (lines 308-311): +1 for each of month change > 5,
quarter change > 10, YTD change > 15. -/
def momentum_tally (month_change quarter_change ytd_change : ℚ) : ℤ :=
  (if month_change > 5 then 1 else 0) + (if quarter_change > 10 then 1 else 0) +
    (if ytd_change > 15 then 1 else 0)

/-- The momentum decision cascade (lines 313-332), as a function of the four
already-computed percentage changes. -/
def classify_core (etf_change month_change quarter_change ytd_change : ℚ) : MomentumSignal :=
  let momentum_score := momentum_tally month_change quarter_change ytd_change
  if momentum_score ≥ 2 ∧ etf_change > 0 then
    ⟨if momentum_score = 3 then "strong_buy" else "buy",
      if momentum_score = 3 then 5 else 4,
      etf_change, month_change, quarter_change, ytd_change⟩
  else if momentum_score ≤ -2 ∧ etf_change < 0 then
    ⟨"strong_sell", 1, etf_change, month_change, quarter_change, ytd_change⟩
  else if etf_change < -2 then
    ⟨"sell", 2, etf_change, month_change, quarter_change, ytd_change⟩
  else
    ⟨"neutral", 3, etf_change, month_change, quarter_change, ytd_change⟩

/-- The per-instrument momentum classifier (lines 295-341).  `closes` is the
instrument's Close series oldest first; `etf_current` / `etf_prev` are the
latest and previous closes as supplied in the data dictionary.  The Python
code divides by `etf_prev`, the month-ago close, the quarter-ago close and
the earliest close with no zero guard (unlike the ratio analyzers); that
partiality of division is modelled by returning `none` exactly when one of
those four divisors is zero. -/
def generate_momentum_signal (closes : List ℚ) (etf_current etf_prev : ℚ) :
    Option MomentumSignal :=
  if etf_prev = 0 ∨ month_ago_price closes = 0 ∨ quarter_ago_price closes = 0 ∨
      ytd_price closes = 0 then none
  else
    some (classify_core (pct_change etf_current etf_prev)
      (pct_change etf_current (month_ago_price closes))
      (pct_change etf_current (quarter_ago_price closes))
      (pct_change etf_current (ytd_price closes)))

/-- One supporting-index quote as built by `fetch_supporting_data`
(lines 167-171): current close, previous close, and day change percent. -/
structure QuoteInfo where
  current : ℚ
  prev : ℚ
  change_pct : ℚ
deriving DecidableEq, Repr

/-- The supporting-data dictionary consumed at lines 347-369: each of the
three used indices may be absent (`us10y` is fetched but never used). -/
structure SupportingData where
  dxy : Option QuoteInfo
  vix : Option QuoteInfo
  spx : Option QuoteInfo
deriving DecidableEq, Repr

/-- One fired factor of the `macro_factors` list (lines 345-369), carrying
the numeric value the Python f-string embeds. -/
inductive MacroFactor where
  | dollarStrong (chg : ℚ)
  | dollarWeak (chg : ℚ)
  | vixHigh (lvl : ℚ)
  | vixLow (lvl : ℚ)
  | stocksStrong (chg : ℚ)
  | stocksWeak (chg : ℚ)
deriving DecidableEq, Repr

/-- The textual prefix of each factor string (the `{value:+.2f}` /
`{value:.1f}` numeric suffix, pure float formatting, is not modelled). -/
def MacroFactor.render : MacroFactor → String
  | .dollarStrong _ => "달러 강세"
  | .dollarWeak _ => "달러 약세"
  | .vixHigh _ => "VIX 높음"
  | .vixLow _ => "VIX 낮음"
  | .stocksStrong _ => "주식 강세"
  | .stocksWeak _ => "주식 약세"

/-- The macro-environment record (lines 371-376): `level`, `score`, the
fired factors, and the description (join of the factor strings, or the fixed
"정상 범위" string when none fired). -/
structure MacroSignal where
  level : String
  score : ℤ
  factors : List MacroFactor
  description : String
deriving DecidableEq, Repr

/-- The dollar-index step (lines 348-355): the only branch that changes
`macro_score` (3 − 1 on day change > 1, 3 + 1 on day change < −1). -/
def dxyStep : Option QuoteInfo → ℤ × List MacroFactor
  | some q =>
      if q.change_pct > 1 then (2, [MacroFactor.dollarStrong q.change_pct])
      else if q.change_pct < -1 then (4, [MacroFactor.dollarWeak q.change_pct])
      else (3, [])
  | none => (3, [])

/-- The VIX step (lines 357-362): factors only, no score change. -/
def vixFactors : Option QuoteInfo → List MacroFactor
  | some q =>
      if q.current > 25 then [MacroFactor.vixHigh q.current]
      else if q.current < 15 then [MacroFactor.vixLow q.current]
      else []
  | none => []

/-- The S&P 500 step (lines 364-369): factors only, no score change. -/
def spxFactors : Option QuoteInfo → List MacroFactor
  | some q =>
      if q.change_pct > 1 then [MacroFactor.stocksStrong q.change_pct]
      else if q.change_pct < -1 then [MacroFactor.stocksWeak q.change_pct]
      else []
  | none => []

/-- Builds the macro record from the final score and factor list
(lines 371-376). -/
def MacroSignal.ofScoreFactors (p : ℤ × List MacroFactor) : MacroSignal :=
  ⟨if p.1 ≥ 4 then "favorable" else if p.1 ≤ 2 then "unfavorable" else "neutral",
    p.1, p.2,
    if p.2.isEmpty then "정상 범위" else String.intercalate " | " (p.2.map MacroFactor.render)⟩

/-- The macro-environment aggregator (lines 344-376).  `none` models an empty
(falsy) `supporting_data` dictionary, which skips all index branches. -/
def generateMacroSignal : Option SupportingData → MacroSignal
  | none => MacroSignal.ofScoreFactors (3, [])
  | some d =>
      MacroSignal.ofScoreFactors
        ((dxyStep d.dxy).1, (dxyStep d.dxy).2 ++ vixFactors d.vix ++ spxFactors d.spx)

/-- The five composite labels assigned at lines 569-583 (each pairs a fixed
Korean signal text with a CSS class, e.g. "🟢 매수" / `signal-buy`). -/
inductive CompositeLevel where
  | strong_buy
  | buy
  | neutral
  | sell
  | strong_sell
deriving DecidableEq, Repr

/-- The composite average score (lines 566-567): mean of the `score` fields
of the produced records, defaulting to 3 when no records were produced
(every produced record carries a score, so the `if signals` dict test
coincides with the score list being non-empty). -/
def composite_avg_score (scores : List ℤ) : ℚ :=
  if scores.isEmpty then 3 else (scores.sum : ℚ) / (scores.length : ℚ)

/-- The composite label cascade (lines 569-583). -/
def composite_level (avg_score : ℚ) : CompositeLevel :=
  if avg_score ≥ 4.5 then CompositeLevel.strong_buy
  else if avg_score ≥ 3.5 then CompositeLevel.buy
  else if avg_score ≥ 2.5 then CompositeLevel.neutral
  else if avg_score ≥ 2.0 then CompositeLevel.sell
  else CompositeLevel.strong_sell

/-- The momentum tally never goes below 0: every contribution is +1 or 0
(lines 308-311 only increment). -/
theorem momentum_tally_nonneg (m q y : ℚ) : 0 ≤ momentum_tally m q y := by
  unfold momentum_tally
  split_ifs <;> norm_num

/-- Indexing `k` observations back from the end (`iloc[-k]`, i.e. position
`length - k`) agrees with position `k - 1` of the reversed list. -/
theorem getD_back_eq_reverse_getD (l : List ℚ) (k : ℕ) (h1 : 1 ≤ k) (h2 : k ≤ l.length) :
    l.getD (l.length - k) 0 = l.reverse.getD (k - 1) 0 := by
  rw [List.getD_eq_getElem?_getD, List.getD_eq_getElem?_getD, List.getElem?_reverse (by omega)]
  have he : l.length - 1 - (k - 1) = l.length - k := by omega
  rw [he]

/-- Claim C1, counterexample: a ratio of exactly 82.0 (gold 82, silver 1)
does NOT yield level `buy_silver` — the code's condition is the strict
`ratio > 82`, so 82.0 falls through to the final `neutral` branch. -/
theorem gold_silver_boundary_82_counterexample :
    (calculate_gold_silver_ratio 82 1).map RatioSignal.level ≠ some "buy_silver" := by
  norm_num [calculate_gold_silver_ratio]
  decide

/-- Claim C1 (amended): the gold/silver classification boundaries are exact:
a ratio of exactly 82.0 yields `neutral` (the strict `> 82` excludes the
boundary, as the spec's own classification table says), 90.0 yields
`buy_silver`, 68.0 yields `neutral`, and 60.0 yields `buy_gold`. -/
theorem gold_silver_boundaries :
    calculate_gold_silver_ratio 82 1 = some ⟨82, "neutral", 3⟩ ∧
    calculate_gold_silver_ratio 90 1 = some ⟨90, "buy_silver", 4⟩ ∧
    calculate_gold_silver_ratio 68 1 = some ⟨68, "neutral", 3⟩ ∧
    calculate_gold_silver_ratio 60 1 = some ⟨60, "buy_gold", 4⟩ := by
  refine ⟨?_, ?_, ?_, ?_⟩ <;> norm_num [calculate_gold_silver_ratio]

/-- Claim C2: the combinator's composite score is the arithmetic mean of the
record scores, defaulting to 3 on an empty record set; the label is chosen
by the descending first-match thresholds 4.5 / 3.5 / 2.5 / 2.0; scores
[5, 4, 3] average to 4.0 and give label `buy`. -/
theorem composite_combinator (scores : List ℤ) (a : ℚ) :
    (scores ≠ [] → composite_avg_score scores = (scores.sum : ℚ) / (scores.length : ℚ)) ∧
    composite_avg_score [] = 3 ∧
    (a ≥ 4.5 → composite_level a = CompositeLevel.strong_buy) ∧
    (3.5 ≤ a ∧ a < 4.5 → composite_level a = CompositeLevel.buy) ∧
    (2.5 ≤ a ∧ a < 3.5 → composite_level a = CompositeLevel.neutral) ∧
    (2 ≤ a ∧ a < 2.5 → composite_level a = CompositeLevel.sell) ∧
    (a < 2 → composite_level a = CompositeLevel.strong_sell) ∧
    composite_avg_score [5, 4, 3] = 4 ∧
    composite_level (composite_avg_score [5, 4, 3]) = CompositeLevel.buy := by
  refine ⟨fun h => ?_, by norm_num [composite_avg_score], fun h => ?_, fun h => ?_,
    fun h => ?_, fun h => ?_, fun h => ?_, by norm_num [composite_avg_score], ?_⟩
  · rw [composite_avg_score, if_neg (by simp [h])]
  all_goals try obtain ⟨h1, h2⟩ := h
  all_goals unfold composite_level
  all_goals try split_ifs <;> first | rfl | (exfalso; linarith)
  · norm_num [composite_avg_score]

/-- Claim C2, witness: the combinator theorem applied at a one-record list
and at average score 5. -/
theorem composite_combinator_witness :
    composite_avg_score [2] = 2 ∧ composite_level 5 = CompositeLevel.strong_buy := by
  constructor
  · have h := (composite_combinator [2] 0).1 (by simp)
    norm_num at h
    exact h
  · exact (composite_combinator [] 5).2.2.1 (by norm_num)

/-- Claim C3: for nonzero silver price, the analyzer computes
`ratio = gold / silver` and classifies it by the first-match table:
ratio > 90 → strong_buy_silver (5); 82 < ratio ≤ 90 → buy_silver (4);
ratio < 60 → strong_buy_gold (5); 60 ≤ ratio < 68 → buy_gold (4);
68 ≤ ratio ≤ 82 → neutral (3). -/
theorem gold_silver_ratio_table (g s : ℚ) (hs : s ≠ 0) :
    (g / s > 90 → calculate_gold_silver_ratio g s = some ⟨g / s, "strong_buy_silver", 5⟩) ∧
    (82 < g / s ∧ g / s ≤ 90 → calculate_gold_silver_ratio g s = some ⟨g / s, "buy_silver", 4⟩) ∧
    (g / s < 60 → calculate_gold_silver_ratio g s = some ⟨g / s, "strong_buy_gold", 5⟩) ∧
    (60 ≤ g / s ∧ g / s < 68 → calculate_gold_silver_ratio g s = some ⟨g / s, "buy_gold", 4⟩) ∧
    (68 ≤ g / s ∧ g / s ≤ 82 → calculate_gold_silver_ratio g s = some ⟨g / s, "neutral", 3⟩) := by
  simp only [calculate_gold_silver_ratio, if_neg hs]
  refine ⟨fun h => ?_, fun h => ?_, fun h => ?_, fun h => ?_, fun h => ?_⟩
  all_goals try obtain ⟨h1, h2⟩ := h
  all_goals split_ifs <;> first | rfl | (exfalso; linarith)

/-- Claim C3, witness: gold futures 2000 and silver futures 20 give ratio
100.0, level `strong_buy_silver`, score 5. -/
theorem gold_silver_ratio_table_witness :
    calculate_gold_silver_ratio 2000 20 = some ⟨100, "strong_buy_silver", 5⟩ := by
  have h := (gold_silver_ratio_table 2000 20 (by norm_num)).1 (by norm_num)
  norm_num at h
  exact h

/-- Claim C4: the gold/silver analyzer returns absent exactly when the
silver price is 0, and on nonzero silver price returns a record whose
`ratio` field is exactly `gold / silver`; the copper/gold analyzer returns
absent exactly when the gold price is 0. -/
theorem ratio_divzero_guards (g s c : ℚ) :
    (calculate_gold_silver_ratio g s = none ↔ s = 0) ∧
    (s ≠ 0 → ∃ sig : RatioSignal, calculate_gold_silver_ratio g s = some sig ∧
      sig.ratio = g / s) ∧
    (calculate_copper_gold_ratio c g = none ↔ g = 0) := by
  refine ⟨?_, fun hs => ?_, ?_⟩
  · simp only [calculate_gold_silver_ratio]
    split_ifs with h <;> simp [h]
  · simp only [calculate_gold_silver_ratio, if_neg hs]
    split_ifs <;> exact ⟨_, rfl, rfl⟩
  · simp only [calculate_copper_gold_ratio]
    split_ifs with h <;> simp [h]

/-- Claim C4, witness: the guard theorem applied at gold 3, silver 2. -/
theorem ratio_divzero_guards_witness :
    ∃ sig : RatioSignal, calculate_gold_silver_ratio 3 2 = some sig ∧ sig.ratio = 3 / 2 :=
  (ratio_divzero_guards 3 2 1).2.1 (by norm_num)

/-- Claim C5: for nonzero gold price, the copper/gold analyzer computes
`ratio = copper / gold * 1000` and classifies it: ratio > 1.5 → risk_on (4);
ratio < 0.8 → risk_off (2); otherwise balanced (3). -/
theorem copper_gold_ratio_table (c g : ℚ) (hg : g ≠ 0) :
    (c / g * 1000 > 1.5 → calculate_copper_gold_ratio c g = some ⟨c / g * 1000, "risk_on", 4⟩) ∧
    (c / g * 1000 < 0.8 → calculate_copper_gold_ratio c g = some ⟨c / g * 1000, "risk_off", 2⟩) ∧
    (0.8 ≤ c / g * 1000 ∧ c / g * 1000 ≤ 1.5 →
      calculate_copper_gold_ratio c g = some ⟨c / g * 1000, "balanced", 3⟩) := by
  simp only [calculate_copper_gold_ratio, if_neg hg]
  refine ⟨fun h => ?_, fun h => ?_, fun h => ?_⟩
  all_goals try obtain ⟨h1, h2⟩ := h
  all_goals split_ifs <;> first | rfl | (exfalso; linarith)

/-- Claim C5, witness: copper 4.5 and gold 2000 give ratio 2.25, level
`risk_on`, score 4. -/
theorem copper_gold_ratio_table_witness :
    calculate_copper_gold_ratio 4.5 2000 = some ⟨2.25, "risk_on", 4⟩ := by
  have h := (copper_gold_ratio_table 4.5 2000 (by norm_num)).1 (by norm_num)
  norm_num at h ⊢
  exact h

/-- Claim C6: the momentum decision cascade equals the claim's three-branch
table (tally ≥ 2 with positive day change → strong_buy on tally 3 / buy on
tally 2; otherwise day change < −2 → sell (2); otherwise neutral (3)) — the
strong_sell branch never changes the outcome; and a concrete 5-observation
series with day change −3% and tally 0 classifies as sell with score 2. -/
theorem momentum_classification (d m q y : ℚ) :
    classify_core d m q y =
      (if momentum_tally m q y ≥ 2 ∧ d > 0 then
        ⟨if momentum_tally m q y = 3 then "strong_buy" else "buy",
          if momentum_tally m q y = 3 then 5 else 4, d, m, q, y⟩
      else if d < -2 then ⟨"sell", 2, d, m, q, y⟩
      else ⟨"neutral", 3, d, m, q, y⟩) ∧
    generate_momentum_signal [100, 100, 100, 100, 100] 97 100 =
      some ⟨"sell", 2, -3, -3, -3, -3⟩ := by
  constructor
  · have hn := momentum_tally_nonneg m q y
    simp only [classify_core]
    by_cases h1 : momentum_tally m q y ≥ 2 ∧ d > 0
    · simp only [if_pos h1]
    · have h2 : ¬(momentum_tally m q y ≤ -2 ∧ d < 0) := by
        rintro ⟨ha, _⟩
        linarith
      simp only [if_neg h1, if_neg h2]
  · norm_num [generate_momentum_signal, month_ago_price, quarter_ago_price, ytd_price,
      pct_change, classify_core, momentum_tally]

/-- Claim C7: the month-ago reference is the close 20 observations back from
the end (position 19 of the reversed series) or the earliest close when the
series is shorter than 20; the quarter-ago reference likewise with 60; and
for any 5-observation series the month reference is the first element. -/
theorem momentum_reference_points (closes : List ℚ) (a b c d e : ℚ) :
    (closes.length ≥ 20 → month_ago_price closes = closes.reverse.getD 19 0) ∧
    (closes.length < 20 → month_ago_price closes = closes.headD 0) ∧
    (closes.length ≥ 60 → quarter_ago_price closes = closes.reverse.getD 59 0) ∧
    (closes.length < 60 → quarter_ago_price closes = closes.headD 0) ∧
    month_ago_price [a, b, c, d, e] = a ∧ quarter_ago_price [a, b, c, d, e] = a := by
  refine ⟨fun h => ?_, fun h => ?_, fun h => ?_, fun h => ?_, rfl, rfl⟩
  · simp only [month_ago_price, if_pos h]
    exact getD_back_eq_reverse_getD closes 20 (by norm_num) h
  · simp only [month_ago_price, if_neg (by omega : ¬closes.length ≥ 20)]
  · simp only [quarter_ago_price, if_pos h]
    exact getD_back_eq_reverse_getD closes 60 (by norm_num) h
  · simp only [quarter_ago_price, if_neg (by omega : ¬closes.length ≥ 60)]

/-- Claim C7, witness: the reference-point theorem applied to a concrete
20-observation series and to a concrete 5-observation series. -/
theorem momentum_reference_points_witness :
    month_ago_price
      [(1 : ℚ), 2, 3, 4, 5, 6, 7, 8, 9, 10, 11, 12, 13, 14, 15, 16, 17, 18, 19, 20] = 1 ∧
    month_ago_price [(1 : ℚ), 2, 3, 4, 5] = 1 := by
  constructor
  · rw [(momentum_reference_points
      [(1 : ℚ), 2, 3, 4, 5, 6, 7, 8, 9, 10, 11, 12, 13, 14, 15, 16, 17, 18, 19, 20]
      0 0 0 0 0).1 (by decide)]
    rfl
  · exact (momentum_reference_points [] 1 2 3 4 5).2.2.2.2.1

/-- The decision cascade never produces the strong_sell record: its guard
needs a tally ≤ −2, but the tally is never negative. -/
theorem classify_core_no_strong_sell (d m q y : ℚ) :
    (classify_core d m q y).level ≠ "strong_sell" ∧ (classify_core d m q y).score ≠ 1 := by
  have hn := momentum_tally_nonneg m q y
  simp only [classify_core]
  by_cases h1 : momentum_tally m q y ≥ 2 ∧ d > 0
  · simp only [if_pos h1]
    by_cases h3 : momentum_tally m q y = 3
    · simp only [if_pos h3]
      exact ⟨(by decide : ("strong_buy" : String) ≠ "strong_sell"), (by decide : (5 : ℤ) ≠ 1)⟩
    · simp only [if_neg h3]
      exact ⟨(by decide : ("buy" : String) ≠ "strong_sell"), (by decide : (4 : ℤ) ≠ 1)⟩
  · simp only [if_neg h1]
    have h2 : ¬(momentum_tally m q y ≤ -2 ∧ d < 0) := by
      rintro ⟨ha, _⟩
      linarith
    simp only [if_neg h2]
    by_cases h4 : d < -2
    · simp only [if_pos h4]
      exact ⟨(by decide : ("sell" : String) ≠ "strong_sell"), (by decide : (2 : ℤ) ≠ 1)⟩
    · simp only [if_neg h4]
      exact ⟨(by decide : ("neutral" : String) ≠ "strong_sell"), (by decide : (3 : ℤ) ≠ 1)⟩

/-- Claim C8: the momentum classifier never returns level `strong_sell` or
score 1 — the branch requires tally ≤ −2 while the tally only increments
from 0. -/
theorem strong_sell_unreachable (closes : List ℚ) (cur prev : ℚ) (s : MomentumSignal)
    (h : generate_momentum_signal closes cur prev = some s) :
    s.level ≠ "strong_sell" ∧ s.score ≠ 1 := by
  unfold generate_momentum_signal at h
  split_ifs at h with hg
  have hs := Option.some.inj h
  subst hs
  exact classify_core_no_strong_sell _ _ _ _

/-- Claim C8, witness: the unreachability theorem applied to a concrete
series whose classification is sell with score 2. -/
theorem strong_sell_unreachable_witness :
    (⟨"sell", 2, -3, -3, -3, -3⟩ : MomentumSignal).level ≠ "strong_sell" ∧
    (⟨"sell", 2, -3, -3, -3, -3⟩ : MomentumSignal).score ≠ 1 :=
  strong_sell_unreachable [100, 100, 100, 100, 100] 97 100 ⟨"sell", 2, -3, -3, -3, -3⟩ (by
    norm_num [generate_momentum_signal, month_ago_price, quarter_ago_price, ytd_price,
      pct_change, classify_core, momentum_tally])

/-- Claim C9: the aggregator's score starts at 3 and is changed only by the
dollar index (−1 on day change > 1, +1 on day change < −1, at most one of
the two); the VIX and S&P steps only append factors; the level is favorable
at score ≥ 4, unfavorable at score ≤ 2, else neutral; and with no supplied
indices the result is score 3, level neutral, and the fixed "정상 범위"
("normal range") rationale string. -/
theorem generateMacroSignal_spec (d : SupportingData) :
    ((generateMacroSignal (some d)).score =
      match d.dxy with
      | some q => if q.change_pct > 1 then 2 else if q.change_pct < -1 then 4 else 3
      | none => 3) ∧
    ((generateMacroSignal (some d)).level =
      if (generateMacroSignal (some d)).score ≥ 4 then "favorable"
      else if (generateMacroSignal (some d)).score ≤ 2 then "unfavorable" else "neutral") ∧
    ((generateMacroSignal (some d)).factors =
      (dxyStep d.dxy).2 ++ vixFactors d.vix ++ spxFactors d.spx) ∧
    generateMacroSignal none = ⟨"neutral", 3, [], "정상 범위"⟩ ∧
    generateMacroSignal (some ⟨none, none, none⟩) = ⟨"neutral", 3, [], "정상 범위"⟩ := by
  refine ⟨?_, rfl, rfl, rfl, rfl⟩
  show (dxyStep d.dxy).1 = _
  cases d.dxy with
  | none => rfl
  | some q =>
      simp only [dxyStep]
      split_ifs <;> rfl

/-- Claim C10: the momentum classifier has no zero-divisor guard — it is
well-defined (produces a record) exactly when all four divisor closes
(previous close, month-ago, quarter-ago, earliest) are nonzero. -/
theorem momentum_no_zero_guard (closes : List ℚ) (cur prev : ℚ) :
    generate_momentum_signal closes cur prev ≠ none ↔
      prev ≠ 0 ∧ month_ago_price closes ≠ 0 ∧ quarter_ago_price closes ≠ 0 ∧
        ytd_price closes ≠ 0 := by
  unfold generate_momentum_signal
  split_ifs with h
  · constructor
    · intro hf
      exact (hf rfl).elim
    · rintro ⟨h1, h2, h3, h4⟩
      rcases h with h | h | h | h
      · exact (h1 h).elim
      · exact (h2 h).elim
      · exact (h3 h).elim
      · exact (h4 h).elim
  · push_neg at h
    exact ⟨fun _ => h, fun _ => by simp⟩
